import Mathlib

/-!
Shallow embedding of the JobSpy API (`api/index.py`).

The handler `_jobs_handler` merges the query string with the JSON body
into one flat parameter mapping, coerces each parameter with the helpers
`_bool`, `_int` and `_csv_list`, validates the source set, the job type
and the description format, forwards the surviving keyword arguments to
the external `scrape_jobs` library call, and serialises the resulting
DataFrame with `df_to_safe_records`.  Every definition below is a direct
translation of the corresponding Python function; the external library
call is a parameter of the handler (a `Scraper`).
-/

namespace JobApi

/-- A Python/JSON value as it occurs in the merged request-parameter
mapping and in the `scrape_jobs` keyword arguments.  `vNull` is Python
`None`: an absent parameter and an explicit JSON `null` both make
`params.get` return `None`, so they are identified.  Floats and nested
objects do not occur on any code path the claims touch and are
omitted. -/
inductive Value where
  | vNull
  | vBool (b : Bool)
  | vInt (n : Int)
  | vStr (s : String)
  | vList (xs : List Value)
deriving Repr

/-- Python `val is None`. -/
def Value.isNull : Value → Bool
  | .vNull => true
  | _ => false

/-- Python `val is None or val == ""` (the shared guard of `_int` and
`_csv_list`; `==` against `""` only holds for the empty string). -/
def Value.isNoneOrEmpty : Value → Bool
  | .vNull => true
  | .vStr s => s == ""
  | _ => false

mutual

/-- Python `repr` of a value, as produced by f-string interpolation of a
list and by `str` on list elements.  String escaping beyond the
surrounding quotes is not modelled; the site names interpolated here
contain no quotes. -/
def pyRepr : Value → String
  | .vNull => "None"
  | .vBool true => "True"
  | .vBool false => "False"
  | .vInt n => toString n
  | .vStr s => "\x27" ++ s ++ "\x27"
  | .vList xs => "[" ++ pyReprList xs ++ "]"

/-- Comma-separated `repr`s of the elements of a Python list. -/
def pyReprList : List Value → String
  | [] => ""
  | [x] => pyRepr x
  | x :: y :: xs => pyRepr x ++ ", " ++ pyReprList (y :: xs)

end

/-- Python `str`: the identity on strings, `repr` otherwise. -/
def pyStr : Value → String
  | .vStr s => s
  | v => pyRepr v

/-- Python truthiness of a value. -/
def pyTruthy : Value → Bool
  | .vNull => false
  | .vBool b => b
  | .vInt n => n != 0
  | .vStr s => s != ""
  | .vList xs => !xs.isEmpty

/-- Python `x or None`, used throughout `_jobs_handler` to collapse
falsy parameter values to `None`. -/
def orNone (v : Value) : Value :=
  if pyTruthy v then v else .vNull

/-- Lower-case one character, as Python `str.lower` does on the ASCII
range (the case-insensitive comparisons in the code only ever involve
ASCII letters). -/
def pyCharLower (c : Char) : Char :=
  if 'A' ≤ c ∧ c ≤ 'Z' then Char.ofNat (c.toNat + 32) else c

/-- Python `str.lower` (ASCII range). -/
def pyLower (s : String) : String :=
  ⟨s.data.map pyCharLower⟩

/-- The whitespace characters Python `str.strip` removes. -/
def isPySpace (c : Char) : Bool :=
  c = ' ' ∨ c = '\t' ∨ c = '\n' ∨ c = '\r' ∨ c = '\x0b' ∨ c = '\x0c'

/-- Python `str.strip()`: drop whitespace from both ends. -/
def pyStrip (s : String) : String :=
  ⟨((s.data.dropWhile isPySpace).reverse.dropWhile isPySpace).reverse⟩

/-- Worker for `pySplitComma`: accumulate the current field (reversed)
and start a new field at each comma. -/
def pySplitCommaAux : List Char → List Char → List String
  | [], acc => [⟨acc.reverse⟩]
  | c :: cs, acc =>
    if c = ',' then ⟨acc.reverse⟩ :: pySplitCommaAux cs []
    else pySplitCommaAux cs (c :: acc)

/-- Python `str.split(",")`: `""` yields `[""]`, and every comma starts
a new field, so separators are never merged. -/
def pySplitComma (s : String) : List String :=
  pySplitCommaAux s.data []

/-- The digits of a candidate integer literal: at least one character
and all ASCII digits. -/
def parseDigits (cs : List Char) : Option Nat :=
  if cs.isEmpty then none
  else if cs.all (·.isDigit) then
    some (cs.foldl (fun a c => a * 10 + (c.toNat - 48)) 0)
  else none

/-- Python `int(s)` on a string: optional surrounding whitespace, an
optional single leading sign, then one or more decimal digits.
Underscore digit-grouping and non-ASCII digits are not modelled; no
request in the claims uses them. -/
def parseIntStr (s : String) : Option Int :=
  match (pyStrip s).data with
  | [] => none
  | c :: cs =>
    if c = '-' then (parseDigits cs).map (fun n => -(n : Int))
    else if c = '+' then (parseDigits cs).map (fun n => (n : Int))
    else (parseDigits (c :: cs)).map (fun n => (n : Int))

/-- Python `int(val)` as a fallible cast: ints pass through, bools map
to 0/1 (`bool` is an `int` subclass), integer-shaped strings parse,
and everything else raises `ValueError`/`TypeError`, modelled as
`none`. -/
def intCast : Value → Option Int
  | .vBool b => some (if b then 1 else 0)
  | .vInt n => some n
  | .vStr s => parseIntStr s
  | .vNull => none
  | .vList _ => none

/-- The module constant `TRUTHY` of `api/index.py`. -/
def TRUTHY : List String := ["1", "true", "yes"]

/-- `_bool` from `api/index.py`: `None` stays `None`, native bools pass
through, ints map by nonzero-ness, and anything else goes through
`str(val).lower() in TRUTHY`. -/
def pyBool : Value → Option Bool
  | .vNull => none
  | .vBool b => some b
  | .vInt n => some (n != 0)
  | v => some (TRUTHY.contains (pyLower (pyStr v)))

/-- `_int` from `api/index.py`: absent or empty-string input falls back
to the default, as does any value `int()` rejects. -/
def pyInt (val : Value) (default : Option Int) : Option Int :=
  if val.isNoneOrEmpty then default
  else
    match intCast val with
    | some n => some n
    | none => default

/-- `_csv_list` from `api/index.py`: a native list is passed through
with each element cast and cast failures dropped; anything else is
`str`-ed, split on commas, stripped, empties dropped, and each part
cast; a result that ends up empty becomes `none`, never `some []`. -/
def csvList (val : Value) (cast : Value → Option α) : Option (List α) :=
  if val.isNoneOrEmpty then none
  else
    match val with
    | .vList xs =>
      let result := xs.filterMap cast
      if result.isEmpty then none else some result
    | v =>
      let parts := ((pySplitComma (pyStr v)).map pyStrip).filter (fun p => p != "")
      if parts.isEmpty then none
      else
        let result := parts.filterMap (fun p => cast (.vStr p))
        if result.isEmpty then none else some result

/-- The default `cast=str` of `_csv_list` call sites; Python `str`
never fails. -/
def strCast (v : Value) : Option String := some (pyStr v)

/-! ### The tabular result and `df_to_safe_records` -/

/-- One cell of the DataFrame returned by `scrape_jobs`, as the cleaning
loop of `df_to_safe_records` observes it.  Constructors record exactly
the features the loop inspects.  `cFloat` carries whether the float is
NaN or infinite together with its `str` form.  `cNaT` is pandas `NaT`:
it has an `isoformat` method and `pd.NaT.isoformat()` returns the
string "NaT" (pandas `NaTType.isoformat`).  `cNA` is `pd.NA`: no
`isoformat`, and `pd.isna` is true for it.  `cDate` is a
date/datetime whose `isoformat()` is the carried string.  `cListC` and
`cDictC` are containers that are kept as-is (contents opaque, the
payload is the `str` form).  `cRaise` is any object whose inspection
inside the `try` block raises an exception that is not the
`TypeError`/`ValueError` the inner `pd.isna` guard swallows; its `str`
form is carried. -/
inductive Cell where
  | cNone
  | cFloat (nanOrInf : Bool) (s : String)
  | cNaT
  | cNA
  | cDate (iso : String)
  | cBoolC (b : Bool)
  | cListC (s : String)
  | cDictC (s : String)
  | cStrC (s : String)
  | cIntC (n : Int)
  | cRaise (s : String)
deriving DecidableEq, Repr

/-- Python `str` of a cell, used by the `except` fallback of
`df_to_safe_records`. -/
def cellStr : Cell → String
  | .cNone => "None"
  | .cFloat _ s => s
  | .cNaT => "NaT"
  | .cNA => "<NA>"
  | .cDate iso => iso
  | .cBoolC true => "True"
  | .cBoolC false => "False"
  | .cListC s => s
  | .cDictC s => s
  | .cStrC s => s
  | .cIntC n => toString n
  | .cRaise s => s

/-- A cleaned cell: JSON `null`, a string (ISO dates, `NaT.isoformat()`
and the `except` fallback), or the original value kept as-is. -/
inductive SafeVal where
  | sNull
  | sStr (s : String)
  | sKeep (c : Cell)
deriving DecidableEq, Repr

/-- The body of the per-cell `try` block of `df_to_safe_records`, in
source order: `None` check, NaN/inf check, `hasattr(val, "isoformat")`,
container/bool pass-through, then the `pd.isna` probe.  `none` means
the block raised and control passes to the `except` handler. -/
def cleanCellCore : Cell → Option SafeVal
  | .cNone => some .sNull
  | .cFloat true _ => some .sNull
  | .cFloat false s => some (.sKeep (.cFloat false s))
  | .cNaT => some (.sStr "NaT")
  | .cDate iso => some (.sStr iso)
  | .cBoolC b => some (.sKeep (.cBoolC b))
  | .cListC s => some (.sKeep (.cListC s))
  | .cDictC s => some (.sKeep (.cDictC s))
  | .cNA => some .sNull
  | .cStrC s => some (.sKeep (.cStrC s))
  | .cIntC n => some (.sKeep (.cIntC n))
  | .cRaise _ => none

/-- One cell through `try`/`except`: when the block raises, the cell is
replaced by `str(val)`, or by `None` when the cell is Python `None`. -/
def cleanCell (c : Cell) : SafeVal :=
  match cleanCellCore c with
  | some v => v
  | none =>
    match c with
    | .cNone => .sNull
    | c => .sStr (cellStr c)

/-- A DataFrame row, as `row.items()` yields it. -/
abbrev Row := List (String × Cell)

/-- `df_to_safe_records` from `api/index.py`. -/
def dfToSafeRecords (df : List Row) : List (List (String × SafeVal)) :=
  df.map (fun row => row.map (fun kv => (kv.1, cleanCell kv.2)))

/-! ### `_jobs_handler` -/

/-- The eight supported sources, in the order of the default list of
`_jobs_handler`; the validation set `valid_sites` holds the same
names. -/
def VALID_SITES : List String :=
  ["linkedin", "indeed", "zip_recruiter", "glassdoor", "google", "bayt", "bdjobs", "naukri"]

/-- `sorted(valid_sites)` as interpolated into the unknown-site error
message. -/
def VALID_SITES_SORTED : List String :=
  ["bayt", "bdjobs", "glassdoor", "google", "indeed", "linkedin", "naukri", "zip_recruiter"]

/-- Python `str` of a list of strings (repr-quoted elements). -/
def pyStrListRepr (xs : List String) : String :=
  pyRepr (.vList (xs.map .vStr))

/-- The f-string of the unknown-site rejection. -/
def unknownSitesMsg (invalid : List String) : String :=
  "Unknown site(s): " ++ pyStrListRepr invalid ++ ". Valid options: " ++
    pyStrListRepr VALID_SITES_SORTED

/-- The f-string of the invalid-job-type rejection. -/
def invalidJobTypeMsg (jt : Value) : String :=
  "Invalid job_type \x27" ++ pyStr jt ++
    "\x27. Valid options: fulltime, parttime, internship, contract"

/-- The f-string of the invalid-description-format rejection. -/
def invalidFormatMsg (fm : Value) : String :=
  "Invalid description_format \x27" ++ pyStr fm ++ "\x27. Valid options: markdown, html"

/-- The `scrape_jobs` keyword arguments, in insertion order. -/
abbrev Kwargs := List (String × Value)

/-- The dict each branch of `_jobs_handler` passes to `jsonify`: the
success envelope, a validation rejection (a dict with the single key
"error"), or the scrape-failure dict with keys "error", "error_type"
and "parameters". -/
inductive Body where
  | success (jobs : List (List (String × SafeVal))) (count : Nat)
      (sites : List String) (query : Kwargs)
  | invalidParam (error : String)
  | scrapeFailure (error : String) (errorType : String) (parameters : Kwargs)

/-- The top-level keys of the dict literal each branch builds. -/
def Body.keys : Body → List String
  | .success _ _ _ _ => ["jobs", "count", "sites", "query"]
  | .invalidParam _ => ["error"]
  | .scrapeFailure _ _ _ => ["error", "error_type", "parameters"]

/-- An HTTP response of the handler: status code and JSON body. -/
structure HttpResponse where
  status : Nat
  body : Body

/-- The outcome of the `scrape_jobs(**kwargs)` call: an exception
(message and type name), or a returned DataFrame, possibly `None`. -/
inductive ScrapeOutcome where
  | raises (msg : String) (ty : String)
  | returns (df : Option (List Row))

/-- The merged query-string/JSON-body parameter mapping (`params`);
`vNull` for every key the request does not set. -/
abbrev Params := String → Value

/-- The external `scrape_jobs` library call, a parameter of the
handler. -/
abbrev Scraper := Kwargs → ScrapeOutcome

/-- `site_name` after `_csv_list`, defaulted to all supported sites by
`if not site_name` (both `None` and an empty list are falsy; `_csv_list`
never actually returns an empty list). -/
def siteNameOf (params : Params) : List String :=
  match csvList (params "site_name") strCast with
  | none => VALID_SITES
  | some [] => VALID_SITES
  | some l => l

/-- `[s for s in site_name if s not in valid_sites]`. -/
def invalidSitesOf (params : Params) : List String :=
  (siteNameOf params).filter (fun s => !(VALID_SITES.contains s))

/-- `job_type = params.get("job_type") or None`. -/
def jobTypeOf (params : Params) : Value := orNone (params "job_type")

/-- `job_type in {None, "fulltime", "parttime", "internship", "contract"}`:
only `None` or one of the four strings belongs to the set. -/
def jobTypeValid : Value → Bool
  | .vNull => true
  | .vStr s => ["fulltime", "parttime", "internship", "contract"].contains s
  | _ => false

/-- `description_format = params.get("description_format") or "markdown"`. -/
def descriptionFormatOf (params : Params) : Value :=
  let v := params "description_format"
  if pyTruthy v then v else .vStr "markdown"

/-- `description_format in {None, "markdown", "html"}`. -/
def formatValid : Value → Bool
  | .vNull => true
  | .vStr s => ["markdown", "html"].contains s
  | _ => false

/-- `is_remote = _bool(params.get("is_remote")) if params.get("is_remote")
is not None else None`. -/
def isRemoteOf (params : Params) : Option Bool :=
  if (params "is_remote").isNull then none else pyBool (params "is_remote")

/-- `easy_apply`, with the same `is not None` wrapper as `is_remote`. -/
def easyApplyOf (params : Params) : Option Bool :=
  if (params "easy_apply").isNull then none else pyBool (params "easy_apply")

/-- `distance = _int(params.get("distance"), default=50)`. -/
def distanceOf (params : Params) : Option Int := pyInt (params "distance") (some 50)

/-- `results_wanted = _int(params.get("results_wanted"), default=15)`. -/
def resultsWantedOf (params : Params) : Option Int := pyInt (params "results_wanted") (some 15)

/-- `hours_old = _int(params.get("hours_old"))` (default `None`). -/
def hoursOldOf (params : Params) : Option Int := pyInt (params "hours_old") none

/-- `offset = _int(params.get("offset"), default=0)`. -/
def offsetOf (params : Params) : Option Int := pyInt (params "offset") (some 0)

/-- `linkedin_fetch_description = _bool(...) or False`. -/
def linkedinFetchDescriptionOf (params : Params) : Bool :=
  (pyBool (params "linkedin_fetch_description")).getD false

/-- `linkedin_company_ids = _csv_list(..., cast=int)`. -/
def linkedinCompanyIdsOf (params : Params) : Option (List Int) :=
  csvList (params "linkedin_company_ids") intCast

/-- `enforce_annual_salary = _bool(...) or False`. -/
def enforceAnnualSalaryOf (params : Params) : Bool :=
  (pyBool (params "enforce_annual_salary")).getD false

/-- `proxies = _csv_list(params.get("proxies"))`. -/
def proxiesOf (params : Params) : Option (List String) :=
  csvList (params "proxies") strCast

/-- The Python value an `Option Int` local holds. -/
def optIntV : Option Int → Value
  | some n => .vInt n
  | none => .vNull

/-- The unconditional `kwargs` dict literal, in source order. -/
def baseKwargs (params : Params) : Kwargs :=
  [("site_name", .vList ((siteNameOf params).map .vStr)),
   ("results_wanted", optIntV (resultsWantedOf params)),
   ("distance", optIntV (distanceOf params)),
   ("description_format", descriptionFormatOf params),
   ("offset", optIntV (offsetOf params)),
   ("linkedin_fetch_description", .vBool (linkedinFetchDescriptionOf params)),
   ("enforce_annual_salary", .vBool (enforceAnnualSalaryOf params)),
   ("verbose", .vInt 0)]

/-- `if x: kwargs[key] = x` for a truthiness-guarded optional argument. -/
def truthyEntry (key : String) (v : Value) : Kwargs :=
  if pyTruthy v then [(key, v)] else []

/-- `if x is not None: kwargs[key] = x` for a tri-state boolean. -/
def optBoolEntry (key : String) (v : Option Bool) : Kwargs :=
  match v with
  | some b => [(key, .vBool b)]
  | none => []

/-- `if x is not None: kwargs[key] = x` for an optional integer. -/
def optIntEntry (key : String) (v : Option Int) : Kwargs :=
  match v with
  | some n => [(key, .vInt n)]
  | none => []

/-- `if xs: kwargs[key] = xs` for an optional integer list. -/
def intListEntry (key : String) (v : Option (List Int)) : Kwargs :=
  match v with
  | some l => if l.isEmpty then [] else [(key, .vList (l.map .vInt))]
  | none => []

/-- `if xs: kwargs[key] = xs` for an optional string list. -/
def strListEntry (key : String) (v : Option (List String)) : Kwargs :=
  match v with
  | some l => if l.isEmpty then [] else [(key, .vList (l.map .vStr))]
  | none => []

/-- The full `kwargs` dict handed to `scrape_jobs`, with the
conditionally-added optional arguments in source order. -/
def kwargsOf (params : Params) : Kwargs :=
  baseKwargs params
    ++ truthyEntry "search_term" (orNone (params "search_term"))
    ++ truthyEntry "google_search_term" (orNone (params "google_search_term"))
    ++ truthyEntry "location" (orNone (params "location"))
    ++ truthyEntry "job_type" (jobTypeOf params)
    ++ optBoolEntry "is_remote" (isRemoteOf params)
    ++ optIntEntry "hours_old" (hoursOldOf params)
    ++ optBoolEntry "easy_apply" (easyApplyOf params)
    ++ intListEntry "linkedin_company_ids" (linkedinCompanyIdsOf params)
    ++ truthyEntry "country_indeed" (orNone (params "country_indeed"))
    ++ strListEntry "proxies" (proxiesOf params)
    ++ truthyEntry "user_agent" (orNone (params "user_agent"))
    ++ truthyEntry "ca_cert" (orNone (params "ca_cert"))

/-- `{k: v for k, v in kwargs.items() if k != "verbose"}`, used both for
the success `query` echo and the failure `parameters` echo. -/
def queryOf (kw : Kwargs) : Kwargs :=
  kw.filter (fun kv => kv.1 != "verbose")

/-- The three validation checks of `_jobs_handler`, in source order;
`some msg` is the message of the 400 rejection that fires first. -/
def validationError (params : Params) : Option String :=
  if invalidSitesOf params ≠ [] then some (unknownSitesMsg (invalidSitesOf params))
  else if !jobTypeValid (jobTypeOf params) then some (invalidJobTypeMsg (jobTypeOf params))
  else if !formatValid (descriptionFormatOf params) then
    some (invalidFormatMsg (descriptionFormatOf params))
  else none

/-- `_jobs_handler` from `api/index.py`: parse, validate, call
`scrape_jobs`, serialise. -/
def jobsHandler (params : Params) (scrape : Scraper) : HttpResponse :=
  match validationError params with
  | some msg => ⟨400, .invalidParam msg⟩
  | none =>
    let kw := kwargsOf params
    match scrape kw with
    | .raises msg ty => ⟨500, .scrapeFailure msg ty (queryOf kw)⟩
    | .returns none => ⟨200, .success [] 0 (siteNameOf params) (queryOf kw)⟩
    | .returns (some df) =>
      if df.isEmpty then ⟨200, .success [] 0 (siteNameOf params) (queryOf kw)⟩
      else
        let records := dfToSafeRecords df
        ⟨200, .success records records.length (siteNameOf params) (queryOf kw)⟩

/-- The `sites` field of a response, when the body is the success
envelope. -/
def HttpResponse.sites (r : HttpResponse) : Option (List String) :=
  match r.body with
  | .success _ _ s _ => some s
  | _ => none

/-! ### Supporting lemmas -/

/-- `pat` occurs as a contiguous substring of `hay`. -/
def strContains (hay pat : String) : Prop := pat.data <:+: hay.data

theorem strContains_refl (s : String) : strContains s s :=
  ⟨[], [], by simp⟩

theorem strContains_append_left (a b : String) {p : String} (h : strContains a p) :
    strContains (a ++ b) p := by
  obtain ⟨u, t, hut⟩ := h
  exact ⟨u, t ++ b.data, by simp [String.data_append, ← hut]⟩

theorem strContains_append_right (a b : String) {p : String} (h : strContains b p) :
    strContains (a ++ b) p := by
  obtain ⟨u, t, hut⟩ := h
  exact ⟨a.data ++ u, t, by simp [String.data_append, ← hut]⟩

theorem strContains_quoted (s : String) : strContains ("\x27" ++ s ++ "\x27") s :=
  strContains_append_left _ _ (strContains_append_right _ _ (strContains_refl s))

theorem strContains_pyReprList_of_mem {s : String} :
    ∀ {xs : List String}, s ∈ xs → strContains (pyReprList (xs.map .vStr)) s := by
  intro xs
  induction xs with
  | nil => intro h; cases h
  | cons x rest ih =>
    intro h
    cases rest with
    | nil =>
      rw [List.mem_singleton] at h
      subst h
      simp only [List.map_cons, List.map_nil, pyReprList, pyRepr]
      exact strContains_quoted s
    | cons y rest2 =>
      simp only [List.map_cons, pyReprList, pyRepr]
      rcases List.mem_cons.mp h with rfl | h
      · exact strContains_append_left _ _ (strContains_append_left _ _ (strContains_quoted s))
      · refine strContains_append_right _ _ ?_
        have := ih h
        simpa only [List.map_cons] using this

theorem strContains_pyStrListRepr_of_mem {s : String} {xs : List String} (h : s ∈ xs) :
    strContains (pyStrListRepr xs) s := by
  unfold pyStrListRepr
  simp only [pyRepr]
  exact strContains_append_left _ _
    (strContains_append_right _ _ (strContains_pyReprList_of_mem h))

theorem mem_truthyEntry {kv : String × Value} {k : String} {v : Value} :
    kv ∈ truthyEntry k v ↔ pyTruthy v = true ∧ kv = (k, v) := by
  unfold truthyEntry
  split <;> simp_all

theorem mem_optBoolEntry {kv : String × Value} {k : String} {v : Option Bool} :
    kv ∈ optBoolEntry k v ↔ ∃ b, v = some b ∧ kv = (k, .vBool b) := by
  cases v <;> simp [optBoolEntry]

theorem mem_optIntEntry {kv : String × Value} {k : String} {v : Option Int} :
    kv ∈ optIntEntry k v ↔ ∃ n, v = some n ∧ kv = (k, .vInt n) := by
  cases v <;> simp [optIntEntry]

theorem mem_intListEntry {kv : String × Value} {k : String} {v : Option (List Int)} :
    kv ∈ intListEntry k v ↔ ∃ l, v = some l ∧ l ≠ [] ∧ kv = (k, .vList (l.map .vInt)) := by
  cases v with
  | none => simp [intListEntry]
  | some l =>
    unfold intListEntry
    split <;> simp_all [List.isEmpty_iff]

theorem mem_strListEntry {kv : String × Value} {k : String} {v : Option (List String)} :
    kv ∈ strListEntry k v ↔ ∃ l, v = some l ∧ l ≠ [] ∧ kv = (k, .vList (l.map .vStr)) := by
  cases v with
  | none => simp [strListEntry]
  | some l =>
    unfold strListEntry
    split <;> simp_all [List.isEmpty_iff]

theorem isRemote_kwargs_iff (params : Params) (v : Value) :
    ("is_remote", v) ∈ kwargsOf params ↔ ∃ b, isRemoteOf params = some b ∧ v = .vBool b := by
  simp [kwargsOf, baseKwargs, List.mem_append, mem_truthyEntry, mem_optBoolEntry,
    mem_optIntEntry, mem_intListEntry, mem_strListEntry, Prod.ext_iff]

theorem easyApply_kwargs_iff (params : Params) (v : Value) :
    ("easy_apply", v) ∈ kwargsOf params ↔ ∃ b, easyApplyOf params = some b ∧ v = .vBool b := by
  simp [kwargsOf, baseKwargs, List.mem_append, mem_truthyEntry, mem_optBoolEntry,
    mem_optIntEntry, mem_intListEntry, mem_strListEntry, Prod.ext_iff]

/-! ### Claims -/

/-- C5: boolean coercion maps native `true`, nonzero ints, and the
strings "1"/"true"/"yes" case-insensitively to `true`; every other
parseable value to `false`; and an absent value to `None` — and the
handler preserves the tri-state of `is_remote` and `easy_apply`: an
unset value is never forwarded to `scrape_jobs`, while an explicit
`false` is forwarded as `false`. -/
theorem C5_bool_coercion :
    pyBool .vNull = none ∧
    (∀ b, pyBool (.vBool b) = some b) ∧
    (∀ n : Int, n ≠ 0 → pyBool (.vInt n) = some true) ∧
    pyBool (.vInt 0) = some false ∧
    (∀ s : String, pyLower s ∈ TRUTHY → pyBool (.vStr s) = some true) ∧
    (∀ s : String, pyLower s ∉ TRUTHY → pyBool (.vStr s) = some false) ∧
    (∀ params : Params, isRemoteOf params = none →
      ∀ v, ("is_remote", v) ∉ kwargsOf params) ∧
    (∀ params : Params, ∀ b, isRemoteOf params = some b →
      ("is_remote", .vBool b) ∈ kwargsOf params) ∧
    (∀ params : Params, easyApplyOf params = none →
      ∀ v, ("easy_apply", v) ∉ kwargsOf params) ∧
    (∀ params : Params, ∀ b, easyApplyOf params = some b →
      ("easy_apply", .vBool b) ∈ kwargsOf params) := by
  refine ⟨rfl, fun b => rfl, ?_, rfl, ?_, ?_, ?_, ?_, ?_, ?_⟩
  · intro n hn
    simp [pyBool, hn]
  · intro s hs
    simpa [pyBool, pyStr, List.elem_iff] using hs
  · intro s hs
    simpa [pyBool, pyStr, List.elem_iff] using hs
  · intro params h v hv
    rcases (isRemote_kwargs_iff params v).mp hv with ⟨b, hb, _⟩
    rw [h] at hb
    cases hb
  · intro params b hb
    exact (isRemote_kwargs_iff params (.vBool b)).mpr ⟨b, hb, rfl⟩
  · intro params h v hv
    rcases (easyApply_kwargs_iff params v).mp hv with ⟨b, hb, _⟩
    rw [h] at hb
    cases hb
  · intro params b hb
    exact (easyApply_kwargs_iff params (.vBool b)).mpr ⟨b, hb, rfl⟩

/-- C5 witness: the parts of C5 with hypotheses, instantiated at
concrete inputs. -/
theorem C5_bool_coercion_witness :
    pyBool (.vInt 7) = some true ∧
    pyBool (.vStr "TRUE") = some true ∧
    pyBool (.vStr "off") = some false ∧
    (("is_remote", Value.vBool true) ∉
      kwargsOf (fun _ => Value.vNull)) ∧
    (("is_remote", Value.vBool false) ∈
      kwargsOf (fun k => if k = "is_remote" then Value.vStr "false" else Value.vNull)) :=
  ⟨C5_bool_coercion.2.2.1 7 (by decide),
   C5_bool_coercion.2.2.2.2.1 "TRUE" (by decide),
   C5_bool_coercion.2.2.2.2.2.1 "off" (by decide),
   C5_bool_coercion.2.2.2.2.2.2.1 (fun _ => Value.vNull) (by decide) (Value.vBool true),
   C5_bool_coercion.2.2.2.2.2.2.2.1 _ false (by decide)⟩

/-- C6: list coercion accepts a native list or a comma-separated
string, casts each element individually (with `int` for
`linkedin_company_ids`), silently drops elements whose cast fails, and
yields `None` rather than an empty list when nothing survives. -/
theorem C6_csv_list_coercion :
    (∀ (α : Type) (cast : Value → Option α) (xs : List Value) (l : List α),
      csvList (.vList xs) cast = some l → l = xs.filterMap cast ∧ l ≠ []) ∧
    (∀ (α : Type) (cast : Value → Option α) (xs : List Value),
      xs.filterMap cast = [] → csvList (.vList xs) cast = none) ∧
    (∀ (α : Type) (cast : Value → Option α) (s : String) (l : List α),
      csvList (.vStr s) cast = some l →
        l = ((((pySplitComma s).map pyStrip).filter (fun p => p != "")).filterMap
              (fun p => cast (.vStr p))) ∧ l ≠ []) ∧
    (∀ (α : Type) (cast : Value → Option α) (s : String),
      ((((pySplitComma s).map pyStrip).filter (fun p => p != "")).filterMap
          (fun p => cast (.vStr p))) = [] → csvList (.vStr s) cast = none) ∧
    (∀ (α : Type) (cast : Value → Option α) (v : Value) (l : List α),
      csvList v cast = some l → l ≠ []) ∧
    csvList (.vStr "1441, x, 2382") intCast = some [1441, 2382] ∧
    csvList (.vList [.vInt 1441, .vStr "x", .vInt 2382]) intCast = some [1441, 2382] ∧
    linkedinCompanyIdsOf
      (fun k => if k = "linkedin_company_ids" then .vStr "1441, x, 2382" else .vNull) =
      some [1441, 2382] := by
  refine ⟨?_, ?_, ?_, ?_, ?_, by decide, by decide, by decide⟩
  · intro α cast xs l h
    simp only [csvList, Value.isNoneOrEmpty, Bool.false_eq_true, if_false] at h
    split at h
    · exact Option.noConfusion h
    · rename_i hr
      have h2 := Option.some.inj h
      subst h2
      exact ⟨rfl, by simpa [List.isEmpty_iff] using hr⟩
  · intro α cast xs hnil
    simp [csvList, Value.isNoneOrEmpty, hnil]
  · intro α cast s l h
    by_cases hs : s = ""
    · subst hs
      simp [csvList, Value.isNoneOrEmpty] at h
    · simp only [csvList, Value.isNoneOrEmpty, beq_iff_eq, pyStr] at h
      rw [if_neg hs] at h
      split at h
      · exact Option.noConfusion h
      · split at h
        · exact Option.noConfusion h
        · rename_i hr
          have h2 := Option.some.inj h
          subst h2
          exact ⟨rfl, by simpa [List.isEmpty_iff] using hr⟩
  · intro α cast s hnil
    by_cases hs : s = ""
    · subst hs
      simp [csvList, Value.isNoneOrEmpty]
    · simp only [csvList, Value.isNoneOrEmpty, beq_iff_eq, pyStr]
      rw [if_neg hs]
      simp [hnil]
  · intro α cast v l h
    unfold csvList at h
    split at h
    · exact Option.noConfusion h
    · split at h
      · dsimp only at h
        split at h
        · exact Option.noConfusion h
        · rename_i hr
          have h2 := Option.some.inj h
          subst h2
          simpa [List.isEmpty_iff] using hr
      · dsimp only at h
        split at h
        · exact Option.noConfusion h
        · split at h
          · exact Option.noConfusion h
          · rename_i hr
            have h2 := Option.some.inj h
            subst h2
            simpa [List.isEmpty_iff] using hr

/-- C6 witness: the parts of C6 with hypotheses, instantiated at
concrete inputs. -/
theorem C6_csv_list_coercion_witness :
    ([1441, 2382] : List Int) =
      [Value.vInt 1441, Value.vStr "x", Value.vInt 2382].filterMap intCast ∧
    ([1441, 2382] : List Int) ≠ [] ∧
    csvList (.vList [.vStr "x", .vNull]) intCast = none ∧
    csvList (.vStr "nope, x") intCast = none :=
  ⟨(C6_csv_list_coercion.1 Int intCast [.vInt 1441, .vStr "x", .vInt 2382] [1441, 2382]
      (by decide)).1,
   (C6_csv_list_coercion.1 Int intCast [.vInt 1441, .vStr "x", .vInt 2382] [1441, 2382]
      (by decide)).2,
   C6_csv_list_coercion.2.1 Int intCast [.vStr "x", .vNull] (by decide),
   C6_csv_list_coercion.2.2.2.1 Int intCast "nope, x" (by decide)⟩

/-- C7: integer coercion returns the parsed integer when the value is
present and parseable, and otherwise — absent, empty string, or
malformed — returns the supplied default; it is a total function, so it
never raises and never rejects the request. -/
theorem C7_int_coercion :
    (∀ d, pyInt .vNull d = d) ∧
    (∀ d, pyInt (.vStr "") d = d) ∧
    (∀ n d, pyInt (.vInt n) d = some n) ∧
    (∀ s n d, parseIntStr s = some n → pyInt (.vStr s) d = some n) ∧
    (∀ s d, parseIntStr s = none → pyInt (.vStr s) d = d) ∧
    (∀ xs d, pyInt (.vList xs) d = d) ∧
    pyInt (.vStr " 42 ") (some 7) = some 42 ∧
    pyInt (.vStr "3.5") (some 7) = some 7 := by
  refine ⟨fun d => rfl, fun d => rfl, fun n d => rfl, ?_, ?_, fun xs d => rfl,
    by decide, by decide⟩
  · intro s n d h
    by_cases hs : s = ""
    · subst hs
      exact Option.noConfusion h
    · simp only [pyInt, Value.isNoneOrEmpty, beq_iff_eq]
      rw [if_neg hs]
      simp [intCast, h]
  · intro s d h
    by_cases hs : s = ""
    · subst hs
      simp [pyInt, Value.isNoneOrEmpty]
    · simp only [pyInt, Value.isNoneOrEmpty, beq_iff_eq]
      rw [if_neg hs]
      simp [intCast, h]

/-- C7 witness: the hypothesised parts of C7 at concrete inputs. -/
theorem C7_int_coercion_witness :
    pyInt (.vStr "-12") (some 7) = some (-12) ∧
    pyInt (.vStr "twelve") (some 7) = some 7 :=
  ⟨C7_int_coercion.2.2.2.1 "-12" (-12) (some 7) (by decide),
   C7_int_coercion.2.2.2.2.1 "twelve" (some 7) (by decide)⟩

/-- C8: the record-normalisation claim fails on pandas `NaT`.  `NaT`
has an `isoformat` method returning the string "NaT", so the
`hasattr(val, "isoformat")` branch of `df_to_safe_records` fires before
the `pd.isna` probe and the cell becomes the JSON string "NaT" instead
of the `None` the claim (and the function's own docstring) requires.
All the other null-like sentinels and conversions behave as claimed. -/
theorem C8_nat_cell_divergence :
    cleanCell .cNaT = .sStr "NaT" ∧
    SafeVal.sStr "NaT" ≠ .sNull ∧
    cleanCell .cNone = .sNull ∧
    cleanCell .cNA = .sNull ∧
    cleanCell (.cFloat true "nan") = .sNull ∧
    cleanCell (.cDate "2025-01-15") = .sStr "2025-01-15" ∧
    cleanCell (.cBoolC true) = .sKeep (.cBoolC true) ∧
    cleanCell (.cListC "[]") = .sKeep (.cListC "[]") ∧
    cleanCell (.cStrC "Acme") = .sKeep (.cStrC "Acme") ∧
    cleanCell (.cIntC 3) = .sKeep (.cIntC 3) ∧
    dfToSafeRecords [[("date_posted", Cell.cNaT)]] =
      [[("date_posted", SafeVal.sStr "NaT")]] := by
  refine ⟨rfl, by decide, rfl, rfl, rfl, rfl, rfl, rfl, rfl, rfl, rfl⟩

/-- C9: when no sources are specified — the `site_name` parameter is
absent, empty, or parses to no elements — the queried source set
defaults to the full known set of eight sources. -/
theorem C9_default_sites (params : Params)
    (h : params "site_name" = .vNull ∨ params "site_name" = .vStr "" ∨
      csvList (params "site_name") strCast = none) :
    siteNameOf params =
      ["linkedin", "indeed", "zip_recruiter", "glassdoor", "google", "bayt", "bdjobs",
        "naukri"] := by
  have hnone : csvList (params "site_name") strCast = none := by
    rcases h with h | h | h
    · rw [h]; rfl
    · rw [h]; rfl
    · exact h
  unfold siteNameOf
  rw [hnone]
  rfl

/-- C9 witness: a `site_name` that parses to no elements (only commas
and whitespace) falls back to the full source set. -/
theorem C9_default_sites_witness :
    siteNameOf (fun k => if k = "site_name" then .vStr " , ," else .vNull) =
      ["linkedin", "indeed", "zip_recruiter", "glassdoor", "google", "bayt", "bdjobs",
        "naukri"] :=
  C9_default_sites _ (Or.inr (Or.inr (by decide)))

/-- C10: record serialisation is total — a cell whose cleaning raises is
replaced by its string form (`None` stays `None`), cells kept as-is are
returned unchanged, and every row of the DataFrame produces a record of
the same keys, so a response is produced for any tabular shape. -/
theorem C10_serialization_total :
    (∀ c, cleanCellCore c = none → cleanCell c = .sStr (cellStr c)) ∧
    (∀ s, cleanCell (.cRaise s) = .sStr s) ∧
    cleanCell .cNone = .sNull ∧
    (∀ c c2, cleanCell c = .sKeep c2 → c2 = c) ∧
    (∀ df, (dfToSafeRecords df).length = df.length) ∧
    (∀ df row, row ∈ df →
      row.map (fun kv => (kv.1, cleanCell kv.2)) ∈ dfToSafeRecords df) := by
  refine ⟨?_, fun s => rfl, rfl, ?_, ?_, ?_⟩
  · intro c h
    cases c <;> first
      | rfl
      | exact Option.noConfusion h
      | (rename_i b s; cases b <;> exact Option.noConfusion h)
  · intro c c2 h
    cases c with
    | cFloat b s =>
      cases b with
      | true => simp [cleanCell, cleanCellCore] at h
      | false => simp [cleanCell, cleanCellCore] at h; simp [h]
    | cNone => simp [cleanCell, cleanCellCore] at h
    | cNaT => simp [cleanCell, cleanCellCore] at h
    | cNA => simp [cleanCell, cleanCellCore] at h
    | cDate iso => simp [cleanCell, cleanCellCore] at h
    | cRaise s => simp [cleanCell, cleanCellCore] at h
    | cBoolC b => simp [cleanCell, cleanCellCore] at h; simp [h]
    | cListC s => simp [cleanCell, cleanCellCore] at h; simp [h]
    | cDictC s => simp [cleanCell, cleanCellCore] at h; simp [h]
    | cStrC s => simp [cleanCell, cleanCellCore] at h; simp [h]
    | cIntC n => simp [cleanCell, cleanCellCore] at h; simp [h]
  · intro df
    simp [dfToSafeRecords]
  · intro df row h
    exact List.mem_map_of_mem _ h

/-- C10 witness: the hypothesised parts of C10 at concrete inputs. -/
theorem C10_serialization_total_witness :
    cleanCell (.cRaise "<ndarray>") = .sStr (cellStr (.cRaise "<ndarray>")) ∧
    Cell.cBoolC false = Cell.cBoolC false ∧
    [("title", cleanCell (Cell.cRaise "<ndarray>"))] ∈
      dfToSafeRecords [[("title", Cell.cRaise "<ndarray>")]] :=
  ⟨C10_serialization_total.1 (.cRaise "<ndarray>") rfl,
   C10_serialization_total.2.2.2.1 (.cBoolC false) (.cBoolC false) rfl,
   C10_serialization_total.2.2.2.2.2 [[("title", Cell.cRaise "<ndarray>")]]
     [("title", Cell.cRaise "<ndarray>")] (by simp)⟩

/-- C1: for every request that passes validation and whose library call
succeeds, the success envelope has `count` equal to the number of job
records; in particular, a scrape that yields no rows (a `None` or empty
DataFrame) produces a 200 envelope with `jobs = []` and `count = 0`,
never an error. -/
theorem C1_count_equals_len (params : Params) (scrape : Scraper)
    (hval : validationError params = none)
    (df : Option (List Row)) (hs : scrape (kwargsOf params) = .returns df) :
    (jobsHandler params scrape).status = 200 ∧
    ∃ jobs, (jobsHandler params scrape).body =
        .success jobs jobs.length (siteNameOf params) (queryOf (kwargsOf params)) ∧
      ((df = none ∨ df = some []) → jobs = []) := by
  unfold jobsHandler
  rw [hval]
  dsimp only
  rw [hs]
  cases df with
  | none => exact ⟨rfl, [], rfl, fun _ => rfl⟩
  | some d =>
    cases d with
    | nil => exact ⟨rfl, [], rfl, fun _ => rfl⟩
    | cons r rs =>
      refine ⟨rfl, dfToSafeRecords (r :: rs), rfl, ?_⟩
      rintro (h | h)
      · exact Option.noConfusion h
      · exact List.noConfusion (Option.some.inj h)

/-- C1 witness: an all-defaults request whose scrape returns an empty
DataFrame gets a 200 envelope with no jobs and count 0. -/
theorem C1_count_equals_len_witness :
    (jobsHandler (fun _ => Value.vNull) (fun _ => .returns (some []))).status = 200 ∧
    ∃ jobs, (jobsHandler (fun _ => Value.vNull) (fun _ => .returns (some []))).body =
        .success jobs jobs.length (siteNameOf (fun _ => Value.vNull))
          (queryOf (kwargsOf (fun _ => Value.vNull))) ∧
      ((some ([] : List Row) = none ∨ some ([] : List Row) = some []) → jobs = []) :=
  C1_count_equals_len (fun _ => Value.vNull) (fun _ => .returns (some []))
    (by decide) (some []) rfl

/-- C3: for every validated request whose `scrape_jobs` call raises, the
handler returns HTTP 500 with body keys error/error_type/parameters,
where `parameters` is exactly the attempted keyword arguments without
the internal `verbose` flag, and no job records are returned. -/
theorem C3_scrape_failure_500 (params : Params) (scrape : Scraper)
    (hval : validationError params = none) (msg ty : String)
    (hs : scrape (kwargsOf params) = .raises msg ty) :
    jobsHandler params scrape =
      ⟨500, .scrapeFailure msg ty (queryOf (kwargsOf params))⟩ ∧
    (jobsHandler params scrape).body.keys = ["error", "error_type", "parameters"] ∧
    (∀ kv, kv ∈ queryOf (kwargsOf params) ↔ kv ∈ kwargsOf params ∧ kv.1 ≠ "verbose") ∧
    (∀ jobs count sites query,
      (jobsHandler params scrape).body ≠ .success jobs count sites query) := by
  have hmain : jobsHandler params scrape =
      ⟨500, .scrapeFailure msg ty (queryOf (kwargsOf params))⟩ := by
    unfold jobsHandler
    rw [hval]
    dsimp only
    rw [hs]
  refine ⟨hmain, by rw [hmain]; rfl, ?_, ?_⟩
  · intro kv
    simp [queryOf, List.mem_filter]
  · intro jobs count sites query
    rw [hmain]
    exact fun h => Body.noConfusion h

/-- C3 witness: an all-defaults request whose scrape raises gets the
500 failure body with the attempted parameters echoed. -/
theorem C3_scrape_failure_500_witness :
    jobsHandler (fun _ => Value.vNull) (fun _ => .raises "boom" "Exception") =
      ⟨500, .scrapeFailure "boom" "Exception"
        (queryOf (kwargsOf (fun _ => Value.vNull)))⟩ ∧
    (jobsHandler (fun _ => Value.vNull)
        (fun _ => .raises "boom" "Exception")).body.keys =
      ["error", "error_type", "parameters"] ∧
    (∀ kv, kv ∈ queryOf (kwargsOf (fun _ => Value.vNull)) ↔
      kv ∈ kwargsOf (fun _ => Value.vNull) ∧ kv.1 ≠ "verbose") ∧
    (∀ jobs count sites query,
      (jobsHandler (fun _ => Value.vNull)
          (fun _ => .raises "boom" "Exception")).body ≠
        .success jobs count sites query) :=
  C3_scrape_failure_500 (fun _ => Value.vNull) (fun _ => .raises "boom" "Exception")
    (by decide) "boom" "Exception" rfl

/-- C2 counterexample: a validation rejection does NOT carry the body
shape claimed.  For the unknown source "fakeboard" the 400 body is a
dict with the single key "error" — there is no "error_type" and no
"parameters" key. -/
theorem C2_error_body_counterexample :
    (jobsHandler (fun k => if k = "site_name" then .vStr "fakeboard" else .vNull)
        (fun _ => .returns none)).status = 400 ∧
    (jobsHandler (fun k => if k = "site_name" then .vStr "fakeboard" else .vNull)
        (fun _ => .returns none)).body.keys = ["error"] ∧
    (jobsHandler (fun k => if k = "site_name" then .vStr "fakeboard" else .vNull)
        (fun _ => .returns none)).body.keys ≠ ["error", "error_type", "parameters"] :=
  ⟨by decide, by decide, by decide⟩

/-- C2 (amended): validation runs before any upstream call in the fixed
order — unknown sources first, then invalid job type, then invalid
description format; each rejection is an HTTP 400 whose body is a dict
with the single key "error", whose message names the invalid entries
and the valid set; and a rejected request never contacts the scraper
(the response is the same for every scraper). -/
theorem C2_validation_order_amended (params : Params) (scrape : Scraper) :
    (invalidSitesOf params ≠ [] →
      jobsHandler params scrape =
        ⟨400, .invalidParam (unknownSitesMsg (invalidSitesOf params))⟩ ∧
      (jobsHandler params scrape).body.keys = ["error"] ∧
      (∀ s ∈ invalidSitesOf params,
        strContains (unknownSitesMsg (invalidSitesOf params)) s) ∧
      (∀ s ∈ VALID_SITES_SORTED,
        strContains (unknownSitesMsg (invalidSitesOf params)) s)) ∧
    (invalidSitesOf params = [] → jobTypeValid (jobTypeOf params) = false →
      jobsHandler params scrape =
        ⟨400, .invalidParam (invalidJobTypeMsg (jobTypeOf params))⟩ ∧
      (jobsHandler params scrape).body.keys = ["error"] ∧
      strContains (invalidJobTypeMsg (jobTypeOf params)) (pyStr (jobTypeOf params))) ∧
    (invalidSitesOf params = [] → jobTypeValid (jobTypeOf params) = true →
      formatValid (descriptionFormatOf params) = false →
      jobsHandler params scrape =
        ⟨400, .invalidParam (invalidFormatMsg (descriptionFormatOf params))⟩ ∧
      (jobsHandler params scrape).body.keys = ["error"] ∧
      strContains (invalidFormatMsg (descriptionFormatOf params))
        (pyStr (descriptionFormatOf params))) ∧
    ((validationError params).isSome = true →
      ∀ scrape2 : Scraper, jobsHandler params scrape = jobsHandler params scrape2) := by
  refine ⟨?_, ?_, ?_, ?_⟩
  · intro h1
    have hv : validationError params = some (unknownSitesMsg (invalidSitesOf params)) := by
      unfold validationError
      rw [if_pos h1]
    have hh : jobsHandler params scrape =
        ⟨400, .invalidParam (unknownSitesMsg (invalidSitesOf params))⟩ := by
      unfold jobsHandler
      rw [hv]
    refine ⟨hh, by rw [hh]; rfl, ?_, ?_⟩
    · intro s hs
      unfold unknownSitesMsg
      exact strContains_append_left _ _ (strContains_append_left _ _
        (strContains_append_right _ _ (strContains_pyStrListRepr_of_mem hs)))
    · intro s hs
      unfold unknownSitesMsg
      exact strContains_append_right _ _ (strContains_pyStrListRepr_of_mem hs)
  · intro h1 h2
    have hv : validationError params = some (invalidJobTypeMsg (jobTypeOf params)) := by
      unfold validationError
      rw [if_neg (by simp [h1]), if_pos (by simp [h2])]
    have hh : jobsHandler params scrape =
        ⟨400, .invalidParam (invalidJobTypeMsg (jobTypeOf params))⟩ := by
      unfold jobsHandler
      rw [hv]
    refine ⟨hh, by rw [hh]; rfl, ?_⟩
    unfold invalidJobTypeMsg
    exact strContains_append_left _ _
      (strContains_append_right _ _ (strContains_refl _))
  · intro h1 h2 h3
    have hv : validationError params =
        some (invalidFormatMsg (descriptionFormatOf params)) := by
      unfold validationError
      rw [if_neg (by simp [h1]), if_neg (by simp [h2]), if_pos (by simp [h3])]
    have hh : jobsHandler params scrape =
        ⟨400, .invalidParam (invalidFormatMsg (descriptionFormatOf params))⟩ := by
      unfold jobsHandler
      rw [hv]
    refine ⟨hh, by rw [hh]; rfl, ?_⟩
    unfold invalidFormatMsg
    exact strContains_append_left _ _
      (strContains_append_right _ _ (strContains_refl _))
  · intro h scrape2
    obtain ⟨msg, hm⟩ := Option.isSome_iff_exists.mp h
    unfold jobsHandler
    rw [hm]

/-- C2 witness: an invalid `job_type` of "gig" (with all sources valid)
is rejected with a 400 whose single-key body message mentions "gig". -/
theorem C2_validation_order_amended_witness :
    jobsHandler (fun k => if k = "job_type" then .vStr "gig" else .vNull)
        (fun _ => .returns none) =
      ⟨400, .invalidParam (invalidJobTypeMsg
        (jobTypeOf (fun k => if k = "job_type" then .vStr "gig" else .vNull)))⟩ ∧
    (jobsHandler (fun k => if k = "job_type" then .vStr "gig" else .vNull)
        (fun _ => .returns none)).body.keys = ["error"] ∧
    strContains
      (invalidJobTypeMsg
        (jobTypeOf (fun k => if k = "job_type" then .vStr "gig" else .vNull)))
      (pyStr (jobTypeOf (fun k => if k = "job_type" then .vStr "gig" else .vNull))) :=
  (C2_validation_order_amended
      (fun k => if k = "job_type" then .vStr "gig" else .vNull)
      (fun _ => .returns none)).2.1 (by decide) (by decide)

/-- C4 counterexample: the `sites` field is NOT de-duplicated — a
request naming "indeed" twice reports it twice, not once. -/
theorem C4_sites_not_deduplicated_counterexample :
    (jobsHandler (fun k => if k = "site_name" then .vStr "indeed,indeed" else .vNull)
        (fun _ => .returns none)).sites = some ["indeed", "indeed"] ∧
    (jobsHandler (fun k => if k = "site_name" then .vStr "indeed,indeed" else .vNull)
        (fun _ => .returns none)).sites ≠ some ["indeed"] ∧
    ¬ (["indeed", "indeed"] : List String).Nodup :=
  ⟨by decide, by decide, by decide⟩

/-- C4 (amended): on every success envelope, `sites` equals exactly the
originally requested source list as parsed — order and duplicates
preserved, defaulting to the full known set when none was requested —
whatever DataFrame the scrape produced. -/
theorem C4_sites_echo_amended (params : Params) (scrape : Scraper)
    (hval : validationError params = none)
    (df : Option (List Row)) (hs : scrape (kwargsOf params) = .returns df) :
    (jobsHandler params scrape).sites = some (siteNameOf params) := by
  unfold jobsHandler
  rw [hval]
  dsimp only
  rw [hs]
  cases df with
  | none => rfl
  | some d =>
    cases d with
    | nil => rfl
    | cons r rs => rfl

/-- C4 witness: the duplicated request of the counterexample still
reaches the success envelope, echoing the parsed (non-deduplicated)
list. -/
theorem C4_sites_echo_amended_witness :
    (jobsHandler (fun k => if k = "site_name" then .vStr "indeed,indeed" else .vNull)
        (fun _ => .returns none)).sites =
      some (siteNameOf
        (fun k => if k = "site_name" then .vStr "indeed,indeed" else .vNull)) :=
  C4_sites_echo_amended
    (fun k => if k = "site_name" then .vStr "indeed,indeed" else .vNull)
    (fun _ => .returns none) (by decide) none rfl

end JobApi
